import Mathlib

/-!
Shallow embedding of `src/port-scanner.py` (garuce/python-port-scanner).

The scanner's interaction with the network is abstracted by an oracle:
for a given (host, port) pair, `net i` is the outcome of the i-th
`sock.connect_ex` call made for that pair.  Everything else — the retry
loop of `scan_port`, the early-return guards and the aggregation loops of
`scan_port_range` / `scan_ports` / `scan_all_ports`, and the dispatch in
`main` — is translated directly from the source.  Traces record, besides
the boolean the Python functions return, the number of connection
attempts, sockets opened and closed, and `time.sleep(1)` calls, so that
resource and timing claims can be stated.
-/

/-- Outcome of one `sock.connect_ex((host, port))` call in `scan_port`
(src/port-scanner.py lines 68-74): either the call returns an error code
(`0` means the TCP handshake completed, a nonzero code such as
ECONNREFUSED=111 means the connection was not established), or it raises
one of the exceptions the surrounding `try` handles: `socket.timeout`,
`socket.gaierror` (name-resolution failure), or another `socket.error`. -/
inductive ConnectEvent where
  | ret (code : Nat)
  | timeout
  | gaierror
  | sockError
deriving DecidableEq, Repr

/-- Network oracle for one (host, port) pair: the outcome of the i-th
connect attempt.  The index is the value of the Python variable `retries`
at the time of the attempt (0 for the first attempt). -/
abbrev Net := Nat → ConnectEvent

/-- Per-(host, port) network oracle for a whole scan: `net p` is the
oracle for port `p` on the scanned host. -/
abbrev NetMap := Nat → Net

/-- Observable trace of one `scan_port` call: the boolean it returns
(`True` iff `connect_ex` returned 0), the number of loop iterations that
performed a connection attempt, the number of sockets created and closed,
and the number of `time.sleep(1)` calls executed. -/
structure ScanPortTrace where
  result : Bool
  attempts : Nat
  socketsOpened : Nat
  socketsClosed : Nat
  sleeps : Nat
deriving DecidableEq, Repr

/-- The `while retries < max_retries` loop of `scan_port`
(src/port-scanner.py lines 65-90), recursing on the number of remaining
iterations `max_retries - retries`; `retries` is the Python loop counter
(incremented only on `socket.timeout`).  Each iteration creates one
socket; `finally: sock.close()` closes it on every path out of the `try`.
On `.ret code` the function returns `code == 0`; on `.timeout` the
handler increments `retries`, sleeps 1 second (this happens on every
timeout, including the one that exhausts the loop) and iterates; on
`.gaierror` or another `.sockError` it returns `False`.  When the loop
condition fails the function falls through to `return False` (line 93). -/
def scan_port_go (net : Net) (retries : Nat) : Nat → ScanPortTrace
  | 0 => ⟨false, 0, 0, 0, 0⟩
  | remaining + 1 =>
    match net retries with
    | .ret code => ⟨code == 0, 1, 1, 1, 0⟩
    | .timeout =>
        let t := scan_port_go net (retries + 1) remaining
        ⟨t.result, t.attempts + 1, t.socketsOpened + 1, t.socketsClosed + 1, t.sleeps + 1⟩
    | .gaierror => ⟨false, 1, 1, 1, 0⟩
    | .sockError => ⟨false, 1, 1, 1, 0⟩

/-- `scan_port(host, port, timeout, max_retries)` (src/port-scanner.py
lines 63-93).  `host` and `port` are absorbed into the oracle `net`;
`timeout` is only handed to `sock.settimeout` and does not influence
control flow, so it is carried but unused.  The loop starts with
`retries = 0` and may run at most `max_retries` iterations. -/
def scan_port (net : Net) (timeout : Int) (max_retries : Nat) : ScanPortTrace :=
  scan_port_go net 0 max_retries

/-- Observable trace of one list/range scan: the list the Python function
returns (`open_ports`, in the order appended), the total number of
connection attempts made across all ports, whether a
`ThreadPoolExecutor` was created, and the `max_workers` value it was
created with. -/
structure ScanRunTrace where
  report : List Nat
  totalAttempts : Nat
  poolCreated : Bool
  poolSize : Nat
deriving DecidableEq, Repr

/-- `scan_ports(host, ports, timeout, max_retries)` (src/port-scanner.py
lines 130-161).  Guard: `if not ports: return []` before any executor is
created.  Otherwise a `ThreadPoolExecutor(max_workers=10)` is created
(the 10 is hardcoded at line 138), one future per element of `ports` is
submitted, and the futures dict is iterated in insertion order — the
order of `ports` — appending each port whose `future.result()` is truthy.
Hence the returned list is exactly the sublist of `ports` whose
`scan_port` returned `True`, in the order of `ports`. -/
def scan_ports (net : NetMap) (ports : List Nat) (timeout : Int) (max_retries : Nat) :
    ScanRunTrace :=
  if ports.isEmpty then
    ⟨[], 0, false, 0⟩
  else
    ⟨ports.filter (fun p => (scan_port (net p) timeout max_retries).result),
     (ports.map (fun p => (scan_port (net p) timeout max_retries).attempts)).sum,
     true, 10⟩

/-- `scan_port_range(host, start_port, end_port, timeout, max_retries,
workers=10)` (src/port-scanner.py lines 96-127).  Guard: `if start_port >
end_port` logs an error and returns `[]` before any executor is created.
Otherwise `ThreadPoolExecutor(max_workers=workers)` is created and the
ports `range(start_port, end_port + 1)` are submitted and collected in
ascending order. -/
def scan_port_range (net : NetMap) (start_port end_port : Nat) (timeout : Int)
    (max_retries workers : Nat) : ScanRunTrace :=
  if start_port > end_port then
    ⟨[], 0, false, 0⟩
  else
    let ports := List.range' start_port (end_port - start_port + 1)
    ⟨ports.filter (fun p => (scan_port (net p) timeout max_retries).result),
     (ports.map (fun p => (scan_port (net p) timeout max_retries).attempts)).sum,
     true, workers⟩

/-- `scan_all_ports(host, timeout, max_retries)` (src/port-scanner.py
lines 164-192): `ThreadPoolExecutor(max_workers=10)` over
`range(1, 65536)`. -/
def scan_all_ports (net : NetMap) (timeout : Int) (max_retries : Nat) : ScanRunTrace :=
  let ports := List.range' 1 65535
  ⟨ports.filter (fun p => (scan_port (net p) timeout max_retries).result),
   (ports.map (fun p => (scan_port (net p) timeout max_retries).attempts)).sum,
   true, 10⟩

/-- The timeout validation in `parse_args` (src/port-scanner.py lines
208-213): a non-positive `--timeout` is not rejected; it is replaced by
the default 1 second and parsing continues. -/
def parse_args_timeout (timeout : Int) : Int :=
  if timeout ≤ 0 then 1 else timeout

/-- The scan mode selected by the mutually exclusive command-line options
`-s` (`--single`), `-r` (`--range`), `-a` (`--all`), `-l` (`--list`). -/
inductive ScanMode where
  | single (port : Nat)
  | range (start_port end_port : Nat)
  | all
  | list (ports : List Nat)
deriving DecidableEq, Repr

/-- The dispatch in `main` (src/port-scanner.py lines 227-256): `main`
reads `timeout`, `max_retries` and `workers` from the config (defaults 1,
3, 10) and parses the command line (which includes `--workers`, default
10), then calls the scan function for the selected mode.  Neither the
config `workers` value nor `args.workers` is ever passed on:
`scan_port_range` is called without its `workers` argument (so its Python
default 10 applies), and `scan_ports` / `scan_all_ports` have
`max_workers=10` hardcoded.  The config `timeout` (not the clamped
`args.timeout`) is what reaches the scan functions.  In single mode
`scan_port`'s boolean is discarded and nothing is returned, so the trace
has an empty report and no pool. -/
def main_run (net : NetMap) (mode : ScanMode) (cfg_timeout : Int)
    (cfg_max_retries cfg_workers args_workers : Nat) : ScanRunTrace :=
  match mode with
  | .single p =>
      let t := scan_port (net p) cfg_timeout cfg_max_retries
      ⟨[], t.attempts, false, 0⟩
  | .range s e => scan_port_range net s e cfg_timeout cfg_max_retries 10
  | .all => scan_all_ports net cfg_timeout cfg_max_retries
  | .list ps => scan_ports net ps cfg_timeout cfg_max_retries

/-- Oracle whose every attempt yields the same event. -/
def constNet (e : ConnectEvent) : Net := fun _ => e

/-- Per-port oracle whose every attempt on every port yields the same
event. -/
def constNetMap (e : ConnectEvent) : NetMap := fun _ _ => e

/-- Total waiting time, in seconds, of a `scan_port` run in which every
attempt timed out: each attempt blocks for the full socket timeout and
each `time.sleep(1)` (the backoff hardcoded at line 81) lasts 1 second. -/
def elapsed_all_timeout (timeout : Nat) (t : ScanPortTrace) : Nat :=
  t.attempts * timeout + t.sleeps * 1

-- ### Helper lemmas (shared; not tied to any single claim)

/-- When every attempt times out, the loop runs all remaining iterations:
one attempt, one socket open/close and one sleep per iteration, and the
final result is `False`. -/
theorem scan_port_go_timeout (r n : Nat) :
    scan_port_go (constNet .timeout) r n = ⟨false, n, n, n, n⟩ := by
  induction n generalizing r with
  | zero => rfl
  | succ n ih => simp [scan_port_go, constNet, ih]

/-- A first attempt that returns an error code ends the call at once. -/
theorem scan_port_first_ret (net : Net) (timeout : Int) (max_retries c : Nat)
    (hmr : 1 ≤ max_retries) (hnet : net 0 = .ret c) :
    scan_port net timeout max_retries = ⟨c == 0, 1, 1, 1, 0⟩ := by
  obtain ⟨n, rfl⟩ : ∃ n, max_retries = n + 1 := ⟨max_retries - 1, by omega⟩
  simp [scan_port, scan_port_go, hnet]

/-- A first attempt that raises `socket.gaierror` ends the call at once
with result `False`. -/
theorem scan_port_first_gaierror (net : Net) (timeout : Int) (max_retries : Nat)
    (hmr : 1 ≤ max_retries) (hnet : net 0 = .gaierror) :
    scan_port net timeout max_retries = ⟨false, 1, 1, 1, 0⟩ := by
  obtain ⟨n, rfl⟩ : ∃ n, max_retries = n + 1 := ⟨max_retries - 1, by omega⟩
  simp [scan_port, scan_port_go, hnet]

/-- A first attempt that raises another `socket.error` ends the call at
once with result `False`. -/
theorem scan_port_first_sockError (net : Net) (timeout : Int) (max_retries : Nat)
    (hmr : 1 ≤ max_retries) (hnet : net 0 = .sockError) :
    scan_port net timeout max_retries = ⟨false, 1, 1, 1, 0⟩ := by
  obtain ⟨n, rfl⟩ : ∃ n, max_retries = n + 1 := ⟨max_retries - 1, by omega⟩
  simp [scan_port, scan_port_go, hnet]

/-- In every iteration of the `scan_port` loop, sockets opened, sockets
closed and attempts made coincide. -/
theorem scan_port_go_sockets (net : Net) (r n : Nat) :
    (scan_port_go net r n).socketsOpened = (scan_port_go net r n).attempts ∧
    (scan_port_go net r n).socketsClosed = (scan_port_go net r n).attempts := by
  induction n generalizing r with
  | zero => exact ⟨rfl, rfl⟩
  | succ n ih =>
    simp only [scan_port_go]
    cases net r <;> simp [ih (r + 1)]

/-- The report of `scan_ports` is the input list filtered by the per-port
probe result. -/
theorem scan_ports_report (net : NetMap) (ports : List Nat) (timeout : Int)
    (max_retries : Nat) :
    (scan_ports net ports timeout max_retries).report =
      ports.filter (fun p => (scan_port (net p) timeout max_retries).result) := by
  unfold scan_ports
  by_cases h : ports.isEmpty
  · simp [h, List.isEmpty_iff.mp h]
  · simp [h]

-- ### Claim theorems

/-- C10 (confirmed): calling `scan_port` with `max_retries = 0` performs
no connection attempt at all — the `while retries < max_retries` loop
body never runs, so no socket is ever created — and the function falls
through to `return False` (the not-open result), whatever the network
would have answered. -/
theorem scan_port_zero_retries (net : Net) (timeout : Int) :
    scan_port net timeout 0 = ⟨false, 0, 0, 0, 0⟩ := rfl

/-- C9 (confirmed): each iteration of the `scan_port` loop opens exactly
one socket and the `finally: sock.close()` closes it on every exit path
(success, refusal, timeout, resolution failure, other socket error), so
over a whole call the numbers of sockets opened and closed both equal
the number of attempts made. -/
theorem scan_port_socket_discipline (net : Net) (timeout : Int) (max_retries : Nat) :
    (scan_port net timeout max_retries).socketsOpened =
      (scan_port net timeout max_retries).attempts ∧
    (scan_port net timeout max_retries).socketsClosed =
      (scan_port net timeout max_retries).attempts :=
  scan_port_go_sockets net 0 max_retries

/-- C8 (confirmed): a refused connection — `connect_ex` returning a
nonzero code on the first attempt — ends `scan_port` immediately with
the not-open result and exactly one attempt, one socket, and no backoff
sleep, for every retry policy with `max_retries ≥ 1` (in particular
`max_retries = 3`): a refused port is never re-attempted. -/
theorem refused_not_retried (net : Net) (timeout : Int) (max_retries c : Nat)
    (hmr : 1 ≤ max_retries) (hc : c ≠ 0) (hnet : net 0 = .ret c) :
    scan_port net timeout max_retries = ⟨false, 1, 1, 1, 0⟩ := by
  rw [scan_port_first_ret net timeout max_retries c hmr hnet]
  simp [hc]

/-- Witness for C8: a connection refused with ECONNREFUSED=111 under
`max_retries = 3` yields one attempt and the not-open result. -/
theorem refused_not_retried_witness :
    scan_port (constNet (ConnectEvent.ret 111)) 1 3 = ⟨false, 1, 1, 1, 0⟩ :=
  refused_not_retried (constNet (ConnectEvent.ret 111)) 1 3 111 (by decide) (by decide) rfl

/-- C4 counterexample: with `timeout=1s, max_retries=2` a port that never
responds yields `attempts = 2` (as the claim says) but `sleeps = 2`, not
1 — `time.sleep(1)` runs after every timed-out attempt, including the
final one — so the total waiting time is 2×1s (timeouts) + 2×1s (sleeps)
= 4s, not the claimed ≈3s. -/
theorem timeout_backoff_counterexample :
    scan_port (constNet ConnectEvent.timeout) 1 2 = ⟨false, 2, 2, 2, 2⟩ ∧
    elapsed_all_timeout 1 (scan_port (constNet ConnectEvent.timeout) 1 2) = 4 ∧
    (4 : Nat) ≠ 3 := by decide

/-- C4 (amended): on a timed-out attempt the engine sleeps 1 s (the
hardcoded backoff) and re-attempts while the attempt count is below
`max_retries`, then returns the not-open result with `attempts =
max_retries`; the sleep follows every timed-out attempt including the
last, so a port that never responds waits `max_retries` timeouts plus
`max_retries` backoff sleeps: `max_retries × timeout + max_retries × 1s`
(4 s for `timeout=1s, max_retries=2`, not 3 s). -/
theorem timeout_backoff_amended (t : Int) (timeoutSec max_retries : Nat) :
    scan_port (constNet ConnectEvent.timeout) t max_retries =
      ⟨false, max_retries, max_retries, max_retries, max_retries⟩ ∧
    elapsed_all_timeout timeoutSec (scan_port (constNet ConnectEvent.timeout) t max_retries) =
      max_retries * timeoutSec + max_retries := by
  have h := scan_port_go_timeout 0 max_retries
  refine ⟨h, ?_⟩
  rw [scan_port, h]
  simp [elapsed_all_timeout]

/-- C3 counterexample: when every connect raises `socket.gaierror`
(unresolvable host), a scan of ports `[80, 443]` still probes both ports
— two connection attempts are made in total, and the port whose probe
had "not yet started" when the first failure occurred records 1 attempt,
not 0.  The scan is not terminated early and no port is marked
UNREACHABLE; the report is simply empty. -/
theorem resolution_failure_counterexample :
    scan_ports (constNetMap ConnectEvent.gaierror) [80, 443] 1 3 = ⟨[], 2, true, 10⟩ ∧
    (scan_port (constNetMap ConnectEvent.gaierror 443) 1 3).attempts = 1 := by decide

/-- C3 (amended): host-name resolution failure is handled per port, not
host-wide: each port's probe independently fails on its first attempt
(`socket.gaierror` returns `False` at once, so one attempt per port —
never 0 — and no retries are spent), every requested port is still
probed (total attempts = number of ports), and the report is empty. -/
theorem resolution_failure_amended (ports : List Nat) (timeout : Int) (max_retries : Nat)
    (hmr : 1 ≤ max_retries) :
    (scan_ports (constNetMap ConnectEvent.gaierror) ports timeout max_retries).report = [] ∧
    (scan_ports (constNetMap ConnectEvent.gaierror) ports timeout max_retries).totalAttempts =
      ports.length := by
  have hport : ∀ p : Nat,
      scan_port (constNetMap ConnectEvent.gaierror p) timeout max_retries = ⟨false, 1, 1, 1, 0⟩ :=
    fun p => scan_port_first_gaierror _ timeout max_retries hmr rfl
  unfold scan_ports
  by_cases h : ports.isEmpty
  · simp [h, List.isEmpty_iff.mp h]
  · simp [h, hport]

/-- Witness for C3's amended theorem at ports `[80, 443]`,
`max_retries = 3`. -/
theorem resolution_failure_amended_witness :
    (scan_ports (constNetMap ConnectEvent.gaierror) [80, 443] 1 3).report = [] ∧
    (scan_ports (constNetMap ConnectEvent.gaierror) [80, 443] 1 3).totalAttempts =
      ([80, 443] : List Nat).length :=
  resolution_failure_amended [80, 443] 1 3 (by decide)

/-- C1 counterexample: for the valid target `ports = [9999]` (non-empty,
unique) whose single port refuses the connection, the final report is
empty — it has 0 outcomes for 1 requested port, so the requested port is
missing from the report rather than appearing exactly once. -/
theorem report_per_port_counterexample :
    (scan_ports (constNetMap (ConnectEvent.ret 111)) [9999] 1 3).report = [] ∧
    (scan_ports (constNetMap (ConnectEvent.ret 111)) [9999] 1 3).report.length ≠
      ([9999] : List Nat).length := by decide

/-- C1 (amended): the final report lists exactly those requested ports
whose probe returned open — it is the requested list filtered by the
per-port result, so each open port appears exactly once (the report is
duplicate-free whenever the requested ports are unique) and ports that
did not probe open are absent; the number of outcomes equals the number
of open ports, not the number of requested ports. -/
theorem report_per_port_amended (net : NetMap) (ports : List Nat) (timeout : Int)
    (max_retries : Nat) :
    (scan_ports net ports timeout max_retries).report =
      ports.filter (fun p => (scan_port (net p) timeout max_retries).result) ∧
    (ports.Nodup → (scan_ports net ports timeout max_retries).report.Nodup) := by
  refine ⟨scan_ports_report net ports timeout max_retries, fun hnd => ?_⟩
  rw [scan_ports_report]
  exact hnd.filter _

/-- Witness for C1's amended theorem: on unique ports `[22, 80]` that
both accept, the report is duplicate-free. -/
theorem report_per_port_amended_witness :
    (scan_ports (constNetMap (ConnectEvent.ret 0)) [22, 80] 1 3).report.Nodup :=
  (report_per_port_amended (constNetMap (ConnectEvent.ret 0)) [22, 80] 1 3).2 (by decide)

/-- C2 counterexample: a refused probe (which the claim requires to be
state CLOSED) and a resolution failure (which the claim requires to be
state UNREACHABLE) produce *identical* outcomes — the per-port outcome
is the single boolean `False` with one attempt — so outcomes do not
carry a state drawn from a three-element set, and they carry no service
field at all (in particular no ServiceTable lookup occurs: none exists
in the source). -/
theorem outcome_state_counterexample :
    scan_port (constNet (ConnectEvent.ret 111)) 1 3 =
      scan_port (constNet ConnectEvent.gaierror) 1 3 ∧
    (scan_port (constNet (ConnectEvent.ret 111)) 1 3).result = false := by decide

/-- C2 (amended): a per-port outcome is a bare boolean with no state
enum and no service name: a completed handshake (`connect_ex` = 0)
yields `True`; a refused connection, a resolution failure, another
socket error, and exhaustion of retries under timeout all yield the same
`False`, the first three after exactly one attempt. -/
theorem outcome_state_amended (timeout : Int) (max_retries c : Nat)
    (hmr : 1 ≤ max_retries) (hc : c ≠ 0) :
    (scan_port (constNet (ConnectEvent.ret 0)) timeout max_retries).result = true ∧
    scan_port (constNet (ConnectEvent.ret c)) timeout max_retries = ⟨false, 1, 1, 1, 0⟩ ∧
    scan_port (constNet ConnectEvent.gaierror) timeout max_retries = ⟨false, 1, 1, 1, 0⟩ ∧
    scan_port (constNet ConnectEvent.sockError) timeout max_retries = ⟨false, 1, 1, 1, 0⟩ ∧
    (scan_port (constNet ConnectEvent.timeout) timeout max_retries).result = false := by
  refine ⟨?_, ?_, ?_, ?_, ?_⟩
  · rw [scan_port_first_ret (constNet (ConnectEvent.ret 0)) timeout max_retries 0 hmr rfl]
    rfl
  · rw [scan_port_first_ret (constNet (ConnectEvent.ret c)) timeout max_retries c hmr rfl]
    simp [hc]
  · exact scan_port_first_gaierror (constNet ConnectEvent.gaierror) timeout max_retries hmr rfl
  · exact scan_port_first_sockError (constNet ConnectEvent.sockError) timeout max_retries hmr rfl
  · rw [scan_port, scan_port_go_timeout]

/-- Witness for C2's amended theorem at `max_retries = 3`,
refused code 111. -/
theorem outcome_state_amended_witness :
    (scan_port (constNet (ConnectEvent.ret 0)) 1 3).result = true ∧
    scan_port (constNet (ConnectEvent.ret 111)) 1 3 = ⟨false, 1, 1, 1, 0⟩ ∧
    scan_port (constNet ConnectEvent.gaierror) 1 3 = ⟨false, 1, 1, 1, 0⟩ ∧
    scan_port (constNet ConnectEvent.sockError) 1 3 = ⟨false, 1, 1, 1, 0⟩ ∧
    (scan_port (constNet ConnectEvent.timeout) 1 3).result = false :=
  outcome_state_amended 1 3 111 (by decide) (by decide)

/-- C5 counterexample: a non-positive timeout is not rejected and does
not prevent scheduling: `parse_args` replaces `--timeout 0` by the
default 1 and continues, and `main` run with a config timeout of 0
still creates the worker pool and performs a network attempt. -/
theorem invalid_input_counterexample :
    parse_args_timeout 0 = 1 ∧
    (main_run (constNetMap (ConnectEvent.ret 111)) (ScanMode.list [80]) 0 3 10 10).poolCreated
      = true ∧
    (main_run (constNetMap (ConnectEvent.ret 111)) (ScanMode.list [80]) 0 3 10 10).totalAttempts
      = 1 := by decide

/-- C5 (amended): a start port above the end port and an empty port list
are rejected before any pool is created or any attempt made, returning
an empty report synchronously; but a non-positive timeout is *not*
rejected — `parse_args` silently replaces it with the default 1 second
and the scan proceeds to create workers and touch the network. -/
theorem invalid_input_amended :
    (∀ (net : NetMap) (s e : Nat) (t : Int) (mr w : Nat), s > e →
        scan_port_range net s e t mr w = ⟨[], 0, false, 0⟩) ∧
    (∀ (net : NetMap) (t : Int) (mr : Nat), scan_ports net [] t mr = ⟨[], 0, false, 0⟩) ∧
    (∀ t : Int, t ≤ 0 → parse_args_timeout t = 1) ∧
    (∀ (net : NetMap) (ps : List Nat) (t : Int) (mr w aw : Nat), ps ≠ [] → t ≤ 0 →
        (main_run net (ScanMode.list ps) t mr w aw).poolCreated = true) := by
  refine ⟨?_, ?_, ?_, ?_⟩
  · intro net s e t mr w hse
    simp [scan_port_range, hse]
  · intro net t mr
    simp [scan_ports]
  · intro t ht
    simp [parse_args_timeout, ht]
  · intro net ps t mr w aw hps ht
    simp [main_run, scan_ports, hps]

/-- Witness for C5's amended theorem: inverted range `5 > 2`, empty
list, `--timeout -3`, and a list scan run with config timeout `-3`. -/
theorem invalid_input_amended_witness :
    scan_port_range (constNetMap (ConnectEvent.ret 111)) 5 2 1 3 10 = ⟨[], 0, false, 0⟩ ∧
    scan_ports (constNetMap (ConnectEvent.ret 111)) [] 1 3 = ⟨[], 0, false, 0⟩ ∧
    parse_args_timeout (-3) = 1 ∧
    (main_run (constNetMap (ConnectEvent.ret 111)) (ScanMode.list [80]) (-3) 3 10 10).poolCreated
      = true :=
  ⟨invalid_input_amended.1 _ 5 2 1 3 10 (by decide),
   invalid_input_amended.2.1 _ 1 3,
   invalid_input_amended.2.2.1 (-3) (by decide),
   invalid_input_amended.2.2.2 _ [80] (-3) 3 10 10 (by decide) (by decide)⟩

/-- C6 (code bug): `main` parses `--workers` and reads the config
`workers` value (here both 5) but never passes either on, so in list,
range and all modes alike the pool is created with the hardcoded /
defaulted `max_workers = 10`, not the configured 5. -/
theorem workers_argument_ignored :
    (main_run (constNetMap (ConnectEvent.ret 111)) (ScanMode.list [80]) 1 3 5 5).poolSize = 10 ∧
    (main_run (constNetMap (ConnectEvent.ret 111)) (ScanMode.range 20 25) 1 3 5 5).poolSize
      = 10 ∧
    (main_run (constNetMap (ConnectEvent.ret 111)) ScanMode.all 1 3 5 5).poolSize = 10 ∧
    (10 : Nat) ≠ 5 := by
  refine ⟨rfl, ?_, rfl, by decide⟩
  simp [main_run, scan_port_range]

/-- C7 counterexample: with an explicit port list given in descending
order, `[80, 22]`, both ports open, the report is `[80, 22]` — the
submission order of the list, which is not strictly ascending by port
number.  No sort is applied at aggregation time. -/
theorem ordering_counterexample :
    (scan_ports (constNetMap (ConnectEvent.ret 0)) [80, 22] 1 3).report = [80, 22] ∧
    ¬ List.Pairwise (fun a b : Nat => a < b) [80, 22] := by decide

/-- C7 (amended): the report preserves the submission order of the
requested ports (it is the requested sequence filtered by the per-port
result, independent of completion order); for range scans and the
all-ports scan that order is strictly ascending by port number, but a
list scan keeps the user-given order, which need not be ascending. -/
theorem ordering_amended :
    (∀ (net : NetMap) (s e : Nat) (t : Int) (mr w : Nat),
        List.Pairwise (fun a b : Nat => a < b) (scan_port_range net s e t mr w).report) ∧
    (∀ (net : NetMap) (t : Int) (mr : Nat),
        List.Pairwise (fun a b : Nat => a < b) (scan_all_ports net t mr).report) ∧
    (∀ (net : NetMap) (ps : List Nat) (t : Int) (mr : Nat),
        (scan_ports net ps t mr).report =
          ps.filter (fun p => (scan_port (net p) t mr).result)) := by
  refine ⟨?_, ?_, ?_⟩
  · intro net s e t mr w
    unfold scan_port_range
    by_cases hse : s > e
    · simp [hse]
    · simp only [hse, if_false]
      exact (List.pairwise_lt_range' s (e - s + 1)).filter _
  · intro net t mr
    have h : (scan_all_ports net t mr).report =
        (List.range' 1 65535).filter (fun p => (scan_port (net p) t mr).result) := rfl
    rw [h]
    exact (List.pairwise_lt_range' 1 65535).filter _
  · intro net ps t mr
    exact scan_ports_report net ps t mr
